import Mathlib

/-!
Verification of the connection-pool sizing and supervision policy of the
maap-pgstac repository, embedded shallowly from:
  - src/cdk/PgBouncer.ts            (current PgBouncer CDK construct)
  - src/unnamed/part_000            (legacy PgBouncer CDK construct)
  - src/cdk/scripts/pgbouncer-setup.sh (provisioning / supervision script)
Numbers in the TypeScript source are JavaScript numbers that stay in exact
integer range here, so they are modelled as Nat / Int with explicit
division; JavaScript Math.round on a nonnegative rational num/den is
floor(num/den + 1/2) = (2*num + den) / (2*den) in integer arithmetic.
-/

namespace PgStac

/-- Decidable equality for `Except`, by cases on both constructors. -/
def exceptDecEq {e a : Type} [DecidableEq e] [DecidableEq a] :
    (x y : Except e a) → Decidable (x = y)
  | .ok u, .ok v =>
    if h : u = v then .isTrue (by rw [h]) else .isFalse (by simp [h])
  | .error u, .error v =>
    if h : u = v then .isTrue (by rw [h]) else .isFalse (by simp [h])
  | .ok _, .error _ => .isFalse (by simp)
  | .error _, .ok _ => .isFalse (by simp)

instance {e a : Type} [DecidableEq e] [DecidableEq a] : DecidableEq (Except e a) :=
  exceptDecEq

/-- The instance-type → memory (MB) map `instanceMemoryMapMb` from
src/cdk/PgBouncer.ts lines 74-78. -/
def instanceMemoryMapMb : String → Option Nat
  | "t3.micro" => some 1024
  | "t3.small" => some 2048
  | "t3.medium" => some 4096
  | _ => none

/-- Startup errors thrown by the construct.  The source throws a plain
`Error` with a message; we keep the distinguishing payload. -/
inductive SetupError where
  | unsupportedInstanceType (instType : String)
deriving Repr, DecidableEq

/-- JavaScript `Math.round` on the nonnegative rational `num / den`:
round-half-up, i.e. floor(num/den + 1/2). -/
def jsRound (num den : Nat) : Nat := (2 * num + den) / (2 * den)

/-- `PgBouncer.calculateMaxConnections` from src/cdk/PgBouncer.ts lines
80-94.  Looks up the instance memory, throws on an unrecognized
instance type (the `!memoryMb` test; no map value is 0, so falsiness
coincides with absence), then returns
`Math.min(Math.round(((memoryMb - 300) * 1024 ** 2) / 9531392), 5000)`. -/
def calculateMaxConnections (dbInstanceType : String) : Except SetupError Nat :=
  match instanceMemoryMapMb dbInstanceType with
  | none => .error (.unsupportedInstanceType dbInstanceType)
  | some memoryMb =>
    let memoryInBytes := (memoryMb - 300) * 1024 ^ 2
    .ok (min (jsRound memoryInBytes 9531392) 5000)

/-- The fully-populated pgbouncer configuration
(`Required<PgBouncerConfigProps>` in src/cdk/PgBouncer.ts).  Numeric
fields are Int: the TypeScript type is `number` and defaults involve a
subtraction. -/
structure PgBouncerConfig where
  poolMode : String
  maxClientConn : Int
  defaultPoolSize : Int
  minPoolSize : Int
  reservePoolSize : Int
  reservePoolTimeout : Int
  maxDbConnections : Int
  maxUserConnections : Int
deriving Repr, DecidableEq

/-- `PgBouncerConfigProps` from src/cdk/PgBouncer.ts lines 14-23: every
field optional; `none` models an absent field. -/
structure PgBouncerConfigProps where
  poolMode : Option String
  maxClientConn : Option Int
  defaultPoolSize : Option Int
  minPoolSize : Option Int
  reservePoolSize : Option Int
  reservePoolTimeout : Option Int
  maxDbConnections : Option Int
  maxUserConnections : Option Int
deriving Repr, DecidableEq

/-- The empty overrides record `{}`. -/
def noOverrides : PgBouncerConfigProps :=
  ⟨none, none, none, none, none, none, none, none⟩

/-- `PgBouncer.getDefaultConfig` from src/cdk/PgBouncer.ts lines 96-114:
static defaults, with `maxDbConnections` and `maxUserConnections` set to
`calculateMaxConnections(dbInstanceType) - 10`. -/
def getDefaultConfig (dbInstanceType : String) : Except SetupError PgBouncerConfig := do
  let maxConnections ← calculateMaxConnections dbInstanceType
  pure
    { poolMode := "transaction"
      maxClientConn := 1000
      defaultPoolSize := 5
      minPoolSize := 0
      reservePoolSize := 5
      reservePoolTimeout := 5
      maxDbConnections := (maxConnections : Int) - 10
      maxUserConnections := (maxConnections : Int) - 10 }

/-- The object-spread merge `{...defaultConfig, ...props.pgBouncerConfig}`
from src/cdk/PgBouncer.ts lines 129-132: a field present in the
overrides wins, an absent field keeps the default. -/
def mergeConfig (defaults : PgBouncerConfig) (o : PgBouncerConfigProps) : PgBouncerConfig :=
  { poolMode := o.poolMode.getD defaults.poolMode
    maxClientConn := o.maxClientConn.getD defaults.maxClientConn
    defaultPoolSize := o.defaultPoolSize.getD defaults.defaultPoolSize
    minPoolSize := o.minPoolSize.getD defaults.minPoolSize
    reservePoolSize := o.reservePoolSize.getD defaults.reservePoolSize
    reservePoolTimeout := o.reservePoolTimeout.getD defaults.reservePoolTimeout
    maxDbConnections := o.maxDbConnections.getD defaults.maxDbConnections
    maxUserConnections := o.maxUserConnections.getD defaults.maxUserConnections }

/-- The configuration-building part of the `PgBouncer` constructor
(src/cdk/PgBouncer.ts lines 126-132): compute defaults for the database
instance type, then spread-merge the caller overrides.  An absent
`props.pgBouncerConfig` spreads to nothing, i.e. behaves as `{}`. -/
def buildConfig (dbInstanceType : String) (o : Option PgBouncerConfigProps) :
    Except SetupError PgBouncerConfig := do
  let defaultConfig ← getDefaultConfig dbInstanceType
  pure (mergeConfig defaultConfig (o.getD noOverrides))

/-! ## Setup-script filesystem effects (src/cdk/scripts/pgbouncer-setup.sh)

The script's file-creating commands, in order, with the executable bit
recorded for the two files it marks with chmod +x. -/

/-- One file created by pgbouncer-setup.sh. -/
structure FsWrite where
  path : String
  executable : Bool
deriving Repr, DecidableEq

/-- Every file the setup script creates, in script order: the apt source
list (line 19), pgbouncer.ini (50), userlist.txt (81-83), the log file
(97), the logrotate rule (106), check-pgbouncer.sh (122, chmod +x on
129), crontab.txt (132), the per-boot re-config script (152, chmod +x
on 163), and the CloudWatch agent config (180).  The wget of the agent
package downloads into the working directory and creates no path under
a configured location. -/
def setupScriptWrites : List FsWrite :=
  [ ⟨"/etc/apt/sources.list.d/pgdg.list", false⟩
  , ⟨"/etc/pgbouncer/pgbouncer.ini", false⟩
  , ⟨"/etc/pgbouncer/userlist.txt", false⟩
  , ⟨"/var/log/pgbouncer/pgbouncer.log", false⟩
  , ⟨"/etc/logrotate.d/pgbouncer", false⟩
  , ⟨"/opt/pgbouncer/scripts/check-pgbouncer.sh", true⟩
  , ⟨"/opt/pgbouncer/scripts/crontab.txt", false⟩
  , ⟨"/var/lib/cloud/scripts/per-boot/00-run-config.sh", true⟩
  , ⟨"/opt/aws/amazon-cloudwatch-agent/bin/config.json", false⟩ ]

/-- A crontab time field: either a wildcard star or a fixed value.  The
installed crontab uses only stars, but the type keeps the schedule
honest instead of hard-coding it. -/
inductive CronField where
  | star
  | exact (n : Nat)
deriving Repr, DecidableEq

/-- Does a crontab field accept a concrete value? -/
def CronField.accepts : CronField → Nat → Bool
  | .star, _ => true
  | .exact m, n => m == n

/-- One crontab line: the five time fields and the command. -/
structure CronEntry where
  minute : CronField
  hour : CronField
  dayOfMonth : CronField
  month : CronField
  dayOfWeek : CronField
  command : String
deriving Repr, DecidableEq

/-- A wall-clock instant as crontab sees it. -/
structure CronTime where
  minute : Nat
  hour : Nat
  dayOfMonth : Nat
  month : Nat
  dayOfWeek : Nat
deriving Repr, DecidableEq

/-- An entry fires at a time when all five fields accept it. -/
def CronEntry.firesAt (e : CronEntry) (t : CronTime) : Bool :=
  e.minute.accepts t.minute && e.hour.accepts t.hour
    && e.dayOfMonth.accepts t.dayOfMonth && e.month.accepts t.month
    && e.dayOfWeek.accepts t.dayOfWeek

/-- The crontab installed by the setup script
(src/cdk/scripts/pgbouncer-setup.sh lines 132-140): the health check and
the metrics script, each on the all-stars schedule. -/
def installedCrontab : List CronEntry :=
  [ ⟨.star, .star, .star, .star, .star, "/opt/pgbouncer/scripts/check-pgbouncer.sh"⟩
  , ⟨.star, .star, .star, .star, .star, "/opt/pgbouncer/scripts/pgbouncer-metrics.sh"⟩ ]

/-! ## The health-check supervisor (check-pgbouncer.sh)

The script run from cron every minute:
  if ! pgrep pgbouncer > /dev/null; then
      systemctl start pgbouncer
      echo 'PgBouncer was down, restarted' | logger -t pgbouncer-monitor
  fi
Its observable state: whether the pgbouncer process is running, and the
stream of messages it has sent to the system log. -/

/-- State observed and acted on by check-pgbouncer.sh. -/
structure SupervisedState where
  running : Bool
  loggedEvents : List String
deriving Repr, DecidableEq

/-- The restart message check-pgbouncer.sh sends to logger. -/
def restartMessage : String := "PgBouncer was down, restarted"

/-- One run of check-pgbouncer.sh (src/cdk/scripts/pgbouncer-setup.sh
lines 122-128): when pgrep finds no pgbouncer process, start the
service and log the restart message; otherwise do nothing. -/
def checkPgbouncerTick (s : SupervisedState) : SupervisedState :=
  if s.running then s
  else { running := true, loggedEvents := s.loggedEvents ++ [restartMessage] }

/-! ## The legacy PgBouncer construct (src/unnamed/part_000)

The legacy constructor destructures props with a default for the whole
`pgBouncerConfig` object (lines 77-87): the default applies only when the
caller passes no object at all; a partial object replaces the default
wholesale and its missing fields stay undefined.  The pgbouncer.ini fields
are produced by template-literal interpolation (lines 172-179), where an
undefined field renders as the string "undefined".  The current construct
renders the merged `Required` config the same way via environment
variables; both are modelled by the key/value lines they emit. -/

/-- The legacy whole-object default for `pgBouncerConfig`
(src/unnamed/part_000 lines 77-86). -/
def legacyDefaultConfig : PgBouncerConfigProps :=
  { poolMode := some "transaction"
    maxClientConn := some 1000
    defaultPoolSize := some 20
    minPoolSize := some 10
    reservePoolSize := some 5
    reservePoolTimeout := some 5
    maxDbConnections := some 50
    maxUserConnections := some 50 }

/-- Legacy resolution of the caller's config: a destructuring default,
so an absent object takes the whole default and a present object is
used as-is (no field merge). -/
def legacyResolveConfig (o : Option PgBouncerConfigProps) : PgBouncerConfigProps :=
  match o with
  | none => legacyDefaultConfig
  | some c => c

/-- JavaScript template-literal rendering of a possibly-undefined
string field. -/
def renderStrField : Option String → String
  | none => "undefined"
  | some s => s

/-- JavaScript template-literal rendering of a possibly-undefined
numeric field. -/
def renderIntField : Option Int → String
  | none => "undefined"
  | some n => toString n

/-- The eight pool-configuration lines of pgbouncer.ini as key/value
pairs, from a record of possibly-undefined fields. -/
def renderPoolLines (c : PgBouncerConfigProps) : List (String × String) :=
  [ ("pool_mode", renderStrField c.poolMode)
  , ("max_client_conn", renderIntField c.maxClientConn)
  , ("default_pool_size", renderIntField c.defaultPoolSize)
  , ("min_pool_size", renderIntField c.minPoolSize)
  , ("reserve_pool_size", renderIntField c.reservePoolSize)
  , ("reserve_pool_timeout", renderIntField c.reservePoolTimeout)
  , ("max_db_connections", renderIntField c.maxDbConnections)
  , ("max_user_connections", renderIntField c.maxUserConnections) ]

/-- Pool-configuration lines the legacy construct writes into
pgbouncer.ini (src/unnamed/part_000 lines 172-179). -/
def legacyPoolLines (o : Option PgBouncerConfigProps) : List (String × String) :=
  renderPoolLines (legacyResolveConfig o)

/-- View of a fully-populated config as a record of present fields, for
rendering. -/
def PgBouncerConfig.toProps (c : PgBouncerConfig) : PgBouncerConfigProps :=
  { poolMode := some c.poolMode
    maxClientConn := some c.maxClientConn
    defaultPoolSize := some c.defaultPoolSize
    minPoolSize := some c.minPoolSize
    reservePoolSize := some c.reservePoolSize
    reservePoolTimeout := some c.reservePoolTimeout
    maxDbConnections := some c.maxDbConnections
    maxUserConnections := some c.maxUserConnections }

/-- Pool-configuration lines the current construct writes into
pgbouncer.ini: the merged config's fields, exported as environment
variables (src/cdk/PgBouncer.ts lines 202-217) and substituted into the
ini template (src/cdk/scripts/pgbouncer-setup.sh lines 59-66). -/
def currentPoolLines (dbInstanceType : String) (o : Option PgBouncerConfigProps) :
    Except SetupError (List (String × String)) := do
  let c ← buildConfig dbInstanceType o
  pure (renderPoolLines c.toProps)

/-! ## Admission controller pool (modelled from the spec)

The admission controller's runtime is not implemented in this repository:
the setup script configures and supervises the third-party PgBouncer
daemon, whose pooling engine is external.  The transition system below is
modelled from the spec: §4.3 `requestLease`/`releaseLease`/`closeSession`
and §3 Pool — a bounded set of live backend connections, a FIFO waiting
queue, and reserve connections opened only under queue pressure beyond
`maxDbConnections`, up to `reservePoolSize` more. -/

/-- Modelled from the spec: the two pool limits of §3 `PoolPolicy` that
bound physical backend connections. -/
structure PoolLimits where
  maxDbConnections : Nat
  reservePoolSize : Nat
deriving Repr, DecidableEq

/-- Modelled from the spec: a Pool's runtime state — count of live
(physically open) backend connections, count of those currently leased,
and the FIFO queue of waiting session ids. -/
structure PoolState where
  live : Nat
  leased : Nat
  queue : List Nat
deriving Repr, DecidableEq

/-- Modelled from the spec: a pool starts with no backend connections and
an empty queue (pools are created lazily on first client request, §3). -/
def initialPool : PoolState := ⟨0, 0, []⟩

/-- Modelled from the spec: one transition of a pool under §4.3.
`requestLease` either leases a free connection, opens a new one below
`maxDbConnections`, or enqueues; under sustained queuing it opens reserve
connections strictly below `maxDbConnections + reservePoolSize`;
`releaseLease` frees a lease; a queued session may be cancelled; an idle
connection may be closed. -/
inductive PoolStep (p : PoolLimits) : PoolState → PoolState → Prop
  | enqueue (s : PoolState) (sid : Nat) :
      PoolStep p s ⟨s.live, s.leased, s.queue ++ [sid]⟩
  | leaseFree (s : PoolState) (h : s.leased < s.live) :
      PoolStep p s ⟨s.live, s.leased + 1, s.queue⟩
  | openAndLease (s : PoolState) (h : s.live < p.maxDbConnections) :
      PoolStep p s ⟨s.live + 1, s.leased + 1, s.queue⟩
  | openReserve (s : PoolState) (sid : Nat) (rest : List Nat)
      (hq : s.queue = sid :: rest)
      (h : s.live < p.maxDbConnections + p.reservePoolSize) :
      PoolStep p s ⟨s.live + 1, s.leased + 1, rest⟩
  | release (s : PoolState) (h : 0 < s.leased) :
      PoolStep p s ⟨s.live, s.leased - 1, s.queue⟩
  | cancel (s : PoolState) (front back : List Nat) (sid : Nat)
      (hq : s.queue = front ++ sid :: back) :
      PoolStep p s ⟨s.live, s.leased, front ++ back⟩
  | closeIdle (s : PoolState) (h : s.leased < s.live) :
      PoolStep p s ⟨s.live - 1, s.leased, s.queue⟩

/-- Modelled from the spec: the states a pool can reach from its lazy
creation by §4.3 transitions. -/
inductive PoolReachable (p : PoolLimits) : PoolState → Prop
  | init : PoolReachable p initialPool
  | step {s t : PoolState} : PoolReachable p s → PoolStep p s t → PoolReachable p t

/-! ## Spec-side merge, for the refinement claims

`specMergePolicy` is written from the spec's words (§4.2): explicit
overrides replace defaults field-by-field; unspecified fields take the
computed defaults, `maxDbConnections` and `maxUserConnections` defaulting
to the estimate minus the safety margin of 10 and the rest to the listed
static defaults.  It is compared with the source-derived `buildConfig`. -/

/-- Written from the spec (§4.2 merge policy), to be compared with the
code's `buildConfig`: field-by-field merge over the spec's defaults for
an estimate `maxBackendConnections`. -/
def specMergePolicy (maxBackendConnections : Nat) (o : PgBouncerConfigProps) :
    PgBouncerConfig :=
  { poolMode := o.poolMode.getD "transaction"
    maxClientConn := o.maxClientConn.getD 1000
    defaultPoolSize := o.defaultPoolSize.getD 5
    minPoolSize := o.minPoolSize.getD 0
    reservePoolSize := o.reservePoolSize.getD 5
    reservePoolTimeout := o.reservePoolTimeout.getD 5
    maxDbConnections := o.maxDbConnections.getD ((maxBackendConnections : Int) - 10)
    maxUserConnections := o.maxUserConnections.getD ((maxBackendConnections : Int) - 10) }

/-- The override record of spec Scenario 2:
`{minPoolSize: 20, defaultPoolSize: 10}`, all other fields absent. -/
def scenario2Overrides : PgBouncerConfigProps :=
  { poolMode := none
    maxClientConn := none
    defaultPoolSize := some 10
    minPoolSize := some 20
    reservePoolSize := none
    reservePoolTimeout := none
    maxDbConnections := none
    maxUserConnections := none }

/-- Whether a path lies inside the /opt/pgbouncer/scripts directory. -/
def underScriptsDir (p : String) : Bool :=
  "/opt/pgbouncer/scripts/".toList.isPrefixOf p.toList

/-! ## Helper lemmas shared by the claim theorems -/

/-- On a recognized instance type the estimator returns the rounded,
capped connection count. -/
theorem calcMax_of_mem (t : String) (m : Nat)
    (h : instanceMemoryMapMb t = some m) :
    calculateMaxConnections t
      = .ok (min (jsRound ((m - 300) * 1024 ^ 2) 9531392) 5000) := by
  simp [calculateMaxConnections, h]

/-- On an unrecognized instance type the estimator throws. -/
theorem calcMax_of_not_mem (t : String)
    (h : instanceMemoryMapMb t = none) :
    calculateMaxConnections t = .error (.unsupportedInstanceType t) := by
  simp [calculateMaxConnections, h]

/-- Whenever the estimator succeeds, the constructor's configuration step
succeeds and produces exactly the spec's field-by-field merge over the
estimate. -/
theorem buildConfig_eq_specMerge (t : String) (M : Nat)
    (o : Option PgBouncerConfigProps)
    (h : calculateMaxConnections t = .ok M) :
    buildConfig t o = .ok (specMergePolicy M (o.getD noOverrides)) := by
  simp [buildConfig, getDefaultConfig, h, mergeConfig, specMergePolicy]

/-- A startup error in the estimator propagates unchanged through the
configuration build. -/
theorem buildConfig_error_of_calcMax_error (t : String) (e : SetupError)
    (o : Option PgBouncerConfigProps)
    (h : calculateMaxConnections t = .error e) :
    buildConfig t o = .error e := by
  simp [buildConfig, getDefaultConfig, h]

/-! ## Claim theorems -/

/-- Claim C1, counterexample: building with the override
`minPoolSize = 20, defaultPoolSize = 10` does not fail with any
configuration error — the constructor performs no validation and returns
the merged config, whose minPoolSize (20) exceeds its defaultPoolSize
(10).  This refutes the claimed InvalidConfig failure. -/
theorem C1_counterexample :
    buildConfig "t3.small" (some scenario2Overrides)
      = .ok { poolMode := "transaction", maxClientConn := 1000, defaultPoolSize := 10,
              minPoolSize := 20, reservePoolSize := 5, reservePoolTimeout := 5,
              maxDbConnections := 182, maxUserConnections := 182 } := by
  decide

/-- Claim C1, amended: the pool configuration builder performs no
validation at all.  Whenever the capacity estimator succeeds, the build
succeeds with the plain field-by-field merge and never returns an error
— in particular it never rejects `minPoolSize > defaultPoolSize`,
`maxClientConn < 1`, a negative `reservePoolTimeout`, or an excessive
`maxDbConnections`. -/
theorem C1_builder_performs_no_validation (t : String) (M : Nat)
    (o : Option PgBouncerConfigProps)
    (h : calculateMaxConnections t = .ok M) :
    buildConfig t o = .ok (specMergePolicy M (o.getD noOverrides))
    ∧ ∀ e : SetupError, buildConfig t o ≠ .error e := by
  have hb := buildConfig_eq_specMerge t M o h
  exact ⟨hb, fun e he => by rw [hb] at he; exact Except.noConfusion he⟩

/-- Claim C1, witness: instantiating the amended theorem on the t3.small
profile with no overrides. -/
theorem C1_witness :
    buildConfig "t3.small" none = .ok (specMergePolicy 192 noOverrides)
    ∧ ∀ e : SetupError, buildConfig "t3.small" none ≠ .error e :=
  C1_builder_performs_no_validation "t3.small" 192 none (by decide)

/-- Claim C2, counterexample: at the recognized memory value 1024 MB the
code returns 80 while the claimed floor formula gives 79 — the source
uses Math.round, not floor. -/
theorem C2_counterexample :
    calculateMaxConnections "t3.micro" = .ok 80
    ∧ min (((1024 - 300) * 1024 ^ 2) / 9531392) 5000 = 79 := by
  decide

/-- Claim C2, amended: for every recognized memory value the estimator
returns exactly min of the half-up-rounded quotient (JavaScript
Math.round, i.e. floor of the quotient plus one half) and the hard cap
5000 — not the floor of the quotient. -/
theorem C2_round_half_up (t : String) (m : Nat)
    (h : instanceMemoryMapMb t = some m) :
    calculateMaxConnections t
      = .ok (min ((2 * ((m - 300) * 1024 ^ 2) + 9531392) / (2 * 9531392)) 5000) := by
  simpa [jsRound] using calcMax_of_mem t m h

/-- Claim C2, witness: instantiating the amended theorem at the t3.micro
profile (1024 MB), where rounding matters: the result is 80. -/
theorem C2_witness :
    calculateMaxConnections "t3.micro"
      = .ok (min ((2 * ((1024 - 300) * 1024 ^ 2) + 9531392) / (2 * 9531392)) 5000)
    ∧ min ((2 * ((1024 - 300) * 1024 ^ 2) + 9531392) / (2 * 9531392)) 5000 = 80 :=
  ⟨C2_round_half_up "t3.micro" 1024 rfl, by decide⟩

/-- Claim C3, counterexample: the estimator does not return 191 on the
2048 MB profile. -/
theorem C3_counterexample :
    calculateMaxConnections "t3.small" ≠ .ok 191 := by
  decide

/-- Claim C3, amended: on the 2048 MB profile the estimator returns 192,
and the floor formula min(floor(((2048-300)*1024^2)/9531392), 5000) also
evaluates to 192 (round and floor agree here); the value 191 appears
nowhere. -/
theorem C3_estimate_2048 :
    calculateMaxConnections "t3.small" = .ok 192
    ∧ min (((2048 - 300) * 1024 ^ 2) / 9531392) 5000 = 192 := by
  decide

/-- Claim C4: whenever the estimator succeeds with value M, the built
policy is exactly the field-by-field merge in which a field present in
the overrides takes the override value and an absent field takes its
default — maxDbConnections and maxUserConnections defaulting to M - 10
and the rest to the static defaults (transaction, 1000, 5, 0, 5, 5). -/
theorem C4_merge_field_by_field (t : String) (M : Nat)
    (o : PgBouncerConfigProps)
    (h : calculateMaxConnections t = .ok M) :
    buildConfig t (some o) = .ok (specMergePolicy M o) :=
  buildConfig_eq_specMerge t M (some o) h

/-- Claim C4, witness: the merge on the t3.small profile with the
Scenario 2 overrides. -/
theorem C4_witness :
    buildConfig "t3.small" (some scenario2Overrides)
      = .ok (specMergePolicy 192 scenario2Overrides) :=
  C4_merge_field_by_field "t3.small" 192 scenario2Overrides (by decide)

/-- Claim C5: with the empty overrides record, the built policy's
maxDbConnections is at most the estimated backend ceiling minus the
safety margin of 10. -/
theorem C5_empty_overrides_bound (t : String) (M : Nat)
    (h : calculateMaxConnections t = .ok M) :
    ∃ c : PgBouncerConfig, buildConfig t (some noOverrides) = .ok c
      ∧ c.maxDbConnections ≤ (M : Int) - 10 := by
  refine ⟨specMergePolicy M noOverrides,
    buildConfig_eq_specMerge t M (some noOverrides) h, ?_⟩
  simp [specMergePolicy, noOverrides]

/-- Claim C5, witness: the empty-overrides build on the t3.small
profile. -/
theorem C5_witness :
    ∃ c : PgStac.PgBouncerConfig,
      buildConfig "t3.small" (some noOverrides) = .ok c
        ∧ c.maxDbConnections ≤ (192 : Int) - 10 :=
  C5_empty_overrides_bound "t3.small" 192 (by decide)

/-- Claim C6: the estimator fails exactly when the instance type is not
in the recognized map (t3.micro 1024, t3.small 2048, t3.medium 4096),
and that failure propagates unchanged through the configuration build —
no configuration is produced (no partial startup). -/
theorem C6_unsupported_profile (t : String) (o : Option PgBouncerConfigProps) :
    (instanceMemoryMapMb "t3.micro" = some 1024
      ∧ instanceMemoryMapMb "t3.small" = some 2048
      ∧ instanceMemoryMapMb "t3.medium" = some 4096)
    ∧ ((∃ e, calculateMaxConnections t = .error e) ↔ instanceMemoryMapMb t = none)
    ∧ (∀ e, calculateMaxConnections t = .error e → buildConfig t o = .error e) := by
  refine ⟨⟨rfl, rfl, rfl⟩, ⟨?_, ?_⟩, ?_⟩
  · rintro ⟨e, he⟩
    cases hm : instanceMemoryMapMb t with
    | none => rfl
    | some m => rw [calcMax_of_mem t m hm] at he; exact Except.noConfusion he
  · intro hn
    exact ⟨SetupError.unsupportedInstanceType t, calcMax_of_not_mem t hn⟩
  · intro e he
    exact buildConfig_error_of_calcMax_error t e o he

/-- Claim C6, witness: on the unrecognized instance type t3.large the
whole build fails with the unsupported-instance-type error. -/
theorem C6_witness :
    buildConfig "t3.large" none
      = .error (SetupError.unsupportedInstanceType "t3.large") :=
  (C6_unsupported_profile "t3.large" none).2.2
    (SetupError.unsupportedInstanceType "t3.large") (by decide)

/-- Claim C7: the installed crontab runs the health check at every
wall-clock minute (independent of traffic), and one tick of
check-pgbouncer.sh changes nothing when the process is running, while
when it is not running it starts it and logs the restart message —
exactly start-if-not-running. -/
theorem C7_liveness_supervisor (s : SupervisedState) (t : CronTime) :
    (∃ e ∈ installedCrontab,
        e.command = "/opt/pgbouncer/scripts/check-pgbouncer.sh"
          ∧ e.firesAt t = true)
    ∧ (s.running = true → checkPgbouncerTick s = s)
    ∧ (s.running = false →
        (checkPgbouncerTick s).running = true
          ∧ (checkPgbouncerTick s).loggedEvents
              = s.loggedEvents ++ [restartMessage]) := by
  refine ⟨⟨⟨.star, .star, .star, .star, .star,
      "/opt/pgbouncer/scripts/check-pgbouncer.sh"⟩,
      by simp [installedCrontab], rfl,
      by simp [CronEntry.firesAt, CronField.accepts]⟩, ?_, ?_⟩
  · intro h
    simp [checkPgbouncerTick, h]
  · intro h
    simp [checkPgbouncerTick, h]

/-- Claim C7, witness: a tick on a down process at an arbitrary concrete
time starts the process and logs the restart message. -/
theorem C7_witness :
    (checkPgbouncerTick ⟨false, []⟩).running = true
    ∧ (checkPgbouncerTick ⟨false, []⟩).loggedEvents = [restartMessage] := by
  have h := (C7_liveness_supervisor ⟨false, []⟩ ⟨30, 12, 15, 6, 3⟩).2.2 rfl
  simpa using h

/-- Claim C8 (modelled from the spec, the admission controller runtime
being the external PgBouncer daemon): in every reachable pool state the
number of live backend connections never exceeds
maxDbConnections + reservePoolSize — ordinary opens are guarded by
maxDbConnections and reserve opens by the combined bound. -/
theorem C8_capacity_invariant (p : PoolLimits) (s : PoolState)
    (h : PoolReachable p s) :
    s.live ≤ p.maxDbConnections + p.reservePoolSize := by
  induction h with
  | init => exact Nat.zero_le _
  | step hr hs ih => cases hs <;> simp_all <;> omega

/-- Claim C8, witness: the state reached by opening one connection under
limits maxDbConnections = 2, reservePoolSize = 1 satisfies the bound. -/
theorem C8_witness :
    (⟨1, 1, []⟩ : PoolState).live
      ≤ (⟨2, 1⟩ : PoolLimits).maxDbConnections
          + (⟨2, 1⟩ : PoolLimits).reservePoolSize :=
  C8_capacity_invariant ⟨2, 1⟩ ⟨1, 1, []⟩
    (.step .init (.openAndLease initialPool (by decide)))

/-- Claim C9, counterexample: check-pgbouncer.sh is not the only file the
setup script writes into /opt/pgbouncer/scripts — crontab.txt is written
there too, refuting the parenthetical of the claim. -/
theorem C9_counterexample :
    (⟨"/opt/pgbouncer/scripts/crontab.txt", false⟩ : FsWrite) ∈ setupScriptWrites
    ∧ underScriptsDir "/opt/pgbouncer/scripts/crontab.txt" = true
    ∧ "/opt/pgbouncer/scripts/crontab.txt"
        ≠ "/opt/pgbouncer/scripts/check-pgbouncer.sh" := by
  decide

/-- Claim C9, amended: the installed crontab schedules
/opt/pgbouncer/scripts/pgbouncer-metrics.sh every minute, yet no command
of the setup script creates a file at that path — the files it writes
into /opt/pgbouncer/scripts are exactly check-pgbouncer.sh and
crontab.txt — so the scheduled metrics job references a script the setup
never produces. -/
theorem C9_metrics_script_never_created :
    installedCrontab.contains
        ⟨.star, .star, .star, .star, .star,
          "/opt/pgbouncer/scripts/pgbouncer-metrics.sh"⟩ = true
    ∧ (setupScriptWrites.map FsWrite.path).contains
        "/opt/pgbouncer/scripts/pgbouncer-metrics.sh" = false
    ∧ (setupScriptWrites.filter (fun w => underScriptsDir w.path)).map FsWrite.path
        = ["/opt/pgbouncer/scripts/check-pgbouncer.sh",
           "/opt/pgbouncer/scripts/crontab.txt"] := by
  decide

/-- Claim C10: the two construct versions are not
configuration-equivalent.  The legacy version replaces the whole default
object with the caller record (its destructuring default, so fields
omitted from a partial override render as undefined in pgbouncer.ini),
while the current version merges field-by-field; on the Scenario 2
partial override the two emit different pool configurations. -/
theorem C10_versions_differ :
    legacyResolveConfig (some scenario2Overrides) = scenario2Overrides
    ∧ legacyResolveConfig none = legacyDefaultConfig
    ∧ legacyPoolLines (some scenario2Overrides)
        = [ ("pool_mode", "undefined"), ("max_client_conn", "undefined")
          , ("default_pool_size", "10"), ("min_pool_size", "20")
          , ("reserve_pool_size", "undefined"), ("reserve_pool_timeout", "undefined")
          , ("max_db_connections", "undefined"), ("max_user_connections", "undefined") ]
    ∧ currentPoolLines "t3.small" (some scenario2Overrides)
        = .ok [ ("pool_mode", "transaction"), ("max_client_conn", "1000")
              , ("default_pool_size", "10"), ("min_pool_size", "20")
              , ("reserve_pool_size", "5"), ("reserve_pool_timeout", "5")
              , ("max_db_connections", "182"), ("max_user_connections", "182") ]
    ∧ legacyPoolLines (some scenario2Overrides)
        ≠ [ ("pool_mode", "transaction"), ("max_client_conn", "1000")
          , ("default_pool_size", "10"), ("min_pool_size", "20")
          , ("reserve_pool_size", "5"), ("reserve_pool_timeout", "5")
          , ("max_db_connections", "182"), ("max_user_connections", "182") ] := by
  exact ⟨rfl, rfl, by decide, by decide, by decide⟩

end PgStac
